import Mathlib

/-!
# Verification of the MacroMicro OIS retrieval script

Shallow embedding of `src/mmOIShijacker.py`.  The script is a three stage
pipeline: (1) `harvest_credentials` drives a browser and extracts a bearer
token and cookie jar, (2) `fetch_data_with_credentials` performs the HTTP
call, (3) `process_and_store_data` parses the JSON payload, converts each
`[date, value]` pair into a DynamoDB item and queues it through a batch
writer.

The embedding models the values the Python code manipulates:

* `JVal` is the result of `json` parsing.  Python parses JSON numbers into
  `int`/`float`; the model carries the string produced by Python's `str()`
  for such a number, which is exactly what line 158 feeds to
  `decimal.Decimal`.
* `PyExc` names the exception classes relevant to the script.  The per-point
  handler at line 171 catches only `ValueError`, `TypeError` and
  `IndexError`; `KeyError` and `decimal.InvalidOperation` propagate.
* Date handling follows `datetime.strptime(date_str, "%Y-%m-%d")` (CPython's
  `_strptime` regex, restricted to ASCII digits) followed by
  `.replace(tzinfo=timezone.utc)` and `int(dt.timestamp() * 1000)`.
* `parseDecimal` follows the numeric-string grammar of `decimal.Decimal`
  (strip, drop underscores, case-insensitive regex with integer, fraction,
  exponent, infinity and NaN forms).
-/

/-- A Python value as produced by `json.loads`, with JSON numbers abstracted
to the string `str()` renders them as (string escaping inside `repr` of
containers is elided). -/
inductive JVal where
  | null
  | bool (b : Bool)
  | num (s : String)
  | str (s : String)
  | arr (elems : List JVal)
  | obj (fields : List (String × JVal))

/-- The Python exception classes that the script can raise while processing
a payload. -/
inductive PyExc where
  | valueError
  | typeError
  | indexError
  | keyError
  | invalidOperation
deriving DecidableEq

/-- The per-point handler at line 171 catches exactly
`(ValueError, TypeError, IndexError)`. -/
def caughtPerEntry : PyExc → Bool
  | .valueError => true
  | .typeError => true
  | .indexError => true
  | .keyError => false
  | .invalidOperation => false

/-- Dictionary lookup as built by `json.loads`: on duplicate keys the last
binding wins. -/
def dictLookup (fields : List (String × JVal)) (k : String) : Option JVal :=
  match fields with
  | [] => none
  | (k2, v) :: rest =>
    match dictLookup rest k with
    | some r => some r
    | none => if k2 = k then some v else none

/-- Keys of a Python dict in insertion order, first occurrence kept. -/
def dictKeys : List (String × JVal) → List String
  | [] => []
  | (k, _) :: fs => k :: (dictKeys fs).filter (fun k2 => k2 ≠ k)

/-- Python subscripting `v[key]` with a string key. -/
def pySubscriptStr (v : JVal) (key : String) : Except PyExc JVal :=
  match v with
  | .obj fields =>
    match dictLookup fields key with
    | some x => .ok x
    | none => .error .keyError
  | _ => .error .typeError

/-- Python subscripting `v[i]` with a non-negative int literal. -/
def pyIndex (v : JVal) (i : Nat) : Except PyExc JVal :=
  match v with
  | .arr es =>
    match es.get? i with
    | some x => .ok x
    | none => .error .indexError
  | .str s =>
    match s.data.get? i with
    | some c => .ok (.str (String.mk [c]))
    | none => .error .indexError
  | .obj _ => .error .keyError
  | _ => .error .typeError

/-- Python `len(v)`: defined for lists, strings and dicts; raises
`TypeError` otherwise. -/
def pyLen (v : JVal) : Option Nat :=
  match v with
  | .arr es => some es.length
  | .str s => some s.data.length
  | .obj fs => some (dictKeys fs).length
  | _ => none

/-- Python iteration `for x in v`: lists yield elements, strings yield
one-character strings, dicts yield their keys; other values raise
`TypeError`. -/
def pyIter (v : JVal) : Option (List JVal) :=
  match v with
  | .arr es => some es
  | .str s => some (s.data.map (fun c => JVal.str (String.mk [c])))
  | .obj fs => some ((dictKeys fs).map JVal.str)
  | _ => none

mutual

/-- Python `repr` of a parsed-JSON value (string escaping elided). -/
def pyRepr : JVal → String
  | .null => "None"
  | .bool true => "True"
  | .bool false => "False"
  | .num s => s
  | .str s => "'" ++ s ++ "'"
  | .arr es => "[" ++ String.intercalate ", " (pyReprList es) ++ "]"
  | .obj fs => "\x7b" ++ String.intercalate ", " (pyReprFields fs) ++ "\x7d"

def pyReprList : List JVal → List String
  | [] => []
  | v :: vs => pyRepr v :: pyReprList vs

def pyReprFields : List (String × JVal) → List String
  | [] => []
  | (k, v) :: fs => ("'" ++ k ++ "': " ++ pyRepr v) :: pyReprFields fs

end

/-- Python `str` of a parsed-JSON value. -/
def pyStr : JVal → String
  | .str s => s
  | v => pyRepr v

def isNull : JVal → Bool
  | .null => true
  | _ => false

/-! ## Dates: `datetime.strptime(date_str, "%Y-%m-%d")` and epoch millis -/

def digitVal? (c : Char) : Option Nat :=
  if c.isDigit then some (c.toNat - 48) else none

/-- Proleptic-Gregorian leap year test, as used by `datetime`. -/
def isLeapYear (y : Nat) : Bool :=
  decide (y % 4 = 0 ∧ (y % 100 ≠ 0 ∨ y % 400 = 0))

/-- Length of month `m` of year `y`, as validated by `datetime`. -/
def daysInMonth (y m : Nat) : Nat :=
  if m = 2 then (if isLeapYear y then 29 else 28)
  else if m = 4 ∨ m = 6 ∨ m = 9 ∨ m = 11 then 30
  else 31

/-- Month and day part of the `%Y-%m-%d` format: one or two ASCII digits
each, separated by a literal dash, consuming the whole remainder (CPython's
`_strptime` raises `ValueError` on unconverted trailing data). -/
def parseMD : List Char → Option (Nat × Nat)
  | [m1, '-', d1] => do
    pure (← digitVal? m1, ← digitVal? d1)
  | [m1, '-', d1, d2] => do
    pure (← digitVal? m1, (← digitVal? d1) * 10 + (← digitVal? d2))
  | [m1, m2, '-', d1] => do
    pure ((← digitVal? m1) * 10 + (← digitVal? m2), ← digitVal? d1)
  | [m1, m2, '-', d1, d2] => do
    pure ((← digitVal? m1) * 10 + (← digitVal? m2),
          (← digitVal? d1) * 10 + (← digitVal? d2))
  | _ => none

/-- Shape of a `%Y-%m-%d` string: exactly four ASCII digits of year, a dash,
then month and day. -/
def rawParseDate (s : String) : Option (Nat × Nat × Nat) :=
  match s.data with
  | a :: b :: c :: d :: '-' :: rest =>
    match digitVal? a, digitVal? b, digitVal? c, digitVal? d, parseMD rest with
    | some da, some db, some dc, some dd, some (m, day) =>
      some (((da * 10 + db) * 10 + dc) * 10 + dd, m, day)
    | _, _, _, _, _ => none
  | _ => none

/-- Range checks applied by `_strptime`'s regex together with the `datetime`
constructor: year in `MINYEAR..MAXYEAR`, month `1..12`, day within the
month. -/
def validDate (y m d : Nat) : Bool :=
  1 ≤ y && y ≤ 9999 && 1 ≤ m && m ≤ 12 && 1 ≤ d && d ≤ daysInMonth y m

/-- `datetime.strptime(s, "%Y-%m-%d")`, returning the calendar date or
`none` where Python raises `ValueError`. -/
def parseDate (s : String) : Option (Nat × Nat × Nat) :=
  match rawParseDate s with
  | some (y, m, d) => if validDate y m d then some (y, m, d) else none
  | none => none

/-- Days between 1970-01-01 and the given date (Howard Hinnant's
`days_from_civil`), the value underlying
`datetime(...).replace(tzinfo=timezone.utc).timestamp() / 86400`. -/
def daysFromCivil (y m d : Nat) : Int :=
  let y2 : Nat := if m ≤ 2 then y - 1 else y
  let era : Nat := y2 / 400
  let yoe : Nat := y2 % 400
  let mp : Nat := (m + 9) % 12
  let doy : Nat := (153 * mp + 2) / 5 + (d - 1)
  let doe : Nat := yoe * 365 + yoe / 4 - yoe / 100 + doy
  (era : Int) * 146097 + (doe : Int) - 719468

/-- Line 155: `int(dt_object.timestamp() * 1000)` for a UTC-midnight
datetime. -/
def timestampMsOfDate (y m d : Nat) : Int :=
  daysFromCivil y m d * 86400000

/-! ## `decimal.Decimal` construction from a string -/

/-- A `decimal.Decimal` value: sign (true = negative), coefficient digits as
a natural number, and exponent; or an infinity or (signaling) NaN. -/
inductive Dec where
  | num (sign : Bool) (coeff : Nat) (exp : Int)
  | inf (sign : Bool)
  | nan (signaling : Bool) (sign : Bool) (payload : Nat)
deriving DecidableEq

def digitsToNat (ds : List Char) : Nat :=
  ds.foldl (fun n c => n * 10 + (c.toNat - 48)) 0

/-- Longest prefix of ASCII digits. -/
def splitDigits : List Char → List Char × List Char
  | [] => ([], [])
  | c :: rest =>
    if c.isDigit then
      let p := splitDigits rest
      (c :: p.1, p.2)
    else ([], c :: rest)

def stripSpaces (cs : List Char) : List Char :=
  ((cs.dropWhile Char.isWhitespace).reverse.dropWhile Char.isWhitespace).reverse

/-- Optional exponent part `E[sign]digits` of a decimal numeric string
(input already lowercased). -/
def expOpt : List Char → Option Int
  | [] => some 0
  | 'e' :: rest =>
    let p : Bool × List Char :=
      match rest with
      | '-' :: r => (true, r)
      | '+' :: r => (false, r)
      | r => (false, r)
    let q := splitDigits p.2
    if q.1.isEmpty ∨ ¬ q.2.isEmpty then none
    else some (if p.1 then -(digitsToNat q.1 : Int) else (digitsToNat q.1 : Int))
  | _ => none

/-- Finite numeric form `digits[.digits][E[sign]digits]` with at least one
digit in the coefficient (input already lowercased). -/
def parseDecNumber (cs : List Char) (sign : Bool) : Option Dec :=
  let ip := splitDigits cs
  let fp : List Char × List Char :=
    match ip.2 with
    | '.' :: rest => splitDigits rest
    | r => ([], r)
  match expOpt fp.2 with
  | none => none
  | some e =>
    if ip.1.isEmpty && fp.1.isEmpty then none
    else some (.num sign (digitsToNat (ip.1 ++ fp.1)) (e - fp.1.length))

/-- Magnitude part of a decimal numeric string, after the optional sign. -/
def parseDecMag (cs : List Char) (sign : Bool) : Option Dec :=
  let ls := cs.map Char.toLower
  if ls = "inf".data ∨ ls = "infinity".data then some (.inf sign)
  else
    match ls with
    | 'n' :: 'a' :: 'n' :: rest =>
      if rest.all Char.isDigit then some (.nan false sign (digitsToNat rest))
      else none
    | 's' :: 'n' :: 'a' :: 'n' :: rest =>
      if rest.all Char.isDigit then some (.nan true sign (digitsToNat rest))
      else none
    | _ => parseDecNumber ls sign

/-- `decimal.Decimal(s)` for a string argument: strip whitespace, drop
underscores, then match the numeric-string grammar; `none` models the
`decimal.InvalidOperation` raised on a conversion failure. -/
def parseDecimal (s : String) : Option Dec :=
  let cs := stripSpaces ((stripSpaces s.data).filter (fun c => c ≠ '_'))
  match cs with
  | '-' :: rest => parseDecMag rest true
  | '+' :: rest => parseDecMag rest false
  | rest => parseDecMag rest false

/-! ## Stage 3: `process_and_store_data` -/

/-- A DynamoDB item as queued at lines 161-168. -/
structure Record where
  metricId : String
  timestamp : Int
  value : Dec
deriving DecidableEq

/-- Outcome of the per-point body (lines 143-172) for one `log_entry`. -/
inductive EntryStep where
  | put (r : Record)
  | skip
  | raiseExc (e : PyExc)
deriving DecidableEq

/-- An exception reaching the per-point `except (ValueError, TypeError,
IndexError)` clause: matching classes are skipped, others propagate. -/
def caughtToStep (e : PyExc) : EntryStep :=
  if caughtPerEntry e then .skip else .raiseExc e

/-- Line 153: `datetime.strptime(date_str, "%Y-%m-%d")` applied to the raw
first element — `TypeError` when it is not a string, `ValueError` when it
does not parse. -/
def strptimeYmd (v : JVal) : Except PyExc (Nat × Nat × Nat) :=
  match v with
  | .str ds =>
    match parseDate ds with
    | some ymd => .ok ymd
    | none => .error .valueError
  | _ => .error .typeError

/-- Line 158: `decimal.Decimal(str(value))`. -/
def pyDecimal (s : String) : Except PyExc Dec :=
  match parseDecimal s with
  | some d => .ok d
  | none => .error .invalidOperation

/-- The body of the inner loop (lines 143-172): index the entry, skip null
values, parse the date, convert the value, build the item; exceptions are
filtered by the `except` clause. -/
def processEntry (mid : String) (entry : JVal) : EntryStep :=
  match pyIndex entry 0 with
  | .error e => caughtToStep e
  | .ok dateV =>
    match pyIndex entry 1 with
    | .error e => caughtToStep e
    | .ok value =>
      if isNull value then .skip
      else
        match strptimeYmd dateV with
        | .error e => caughtToStep e
        | .ok (y, m, d) =>
          match pyDecimal (pyStr value) with
          | .error e => caughtToStep e
          | .ok dec => .put ⟨mid, timestampMsOfDate y m d, dec⟩

/-- The inner loop over one series: records queued in order, together with
the uncaught exception that aborted the loop, if any.  Items queued before
an uncaught exception stay queued (the boto3 batch writer flushes them on
exit). -/
def runEntries (mid : String) : List JVal → List Record × Option PyExc
  | [] => ([], none)
  | e :: rest =>
    match processEntry mid e with
    | .put r => ((r :: (runEntries mid rest).1), (runEntries mid rest).2)
    | .skip => runEntries mid rest
    | .raiseExc ex => ([], some ex)

/-- The outer loop (lines 129-175): series are matched to metric ids by
position, the loop breaks at the first index with no configured metric id,
and iterating a non-iterable series raises an uncaught `TypeError`. -/
def runSeriesFrom (ids : List String) : Nat → List JVal → List Record × Option PyExc
  | _, [] => ([], none)
  | idx, s :: rest =>
    if h : idx < ids.length then
      match pyIter s with
      | none => ([], some PyExc.typeError)
      | some entries =>
        let first := runEntries (ids.get ⟨idx, h⟩) entries
        match first.2 with
        | some ex => (first.1, some ex)
        | none =>
          let r2 := runSeriesFrom ids (idx + 1) rest
          (first.1 ++ r2.1, r2.2)
    else ([], none)

/-- Lines 116-121: `api_data['data']['c:115044']['series']` inside
`try ... except (KeyError, TypeError)`. -/
def navigatePayload (api_data : JVal) : Except PyExc JVal := do
  let d ← pySubscriptStr api_data "data"
  let c ← pySubscriptStr d "c:115044"
  pySubscriptStr c "series"

/-- Observable outcome of `process_and_store_data`: the structured
path-error return at lines 118-121, an uncaught exception (with the records
already queued, which the batch writer still flushes), or a normal return
with the queued records and whether the count-mismatch warning fired. -/
inductive ProcResult where
  | pathError
  | uncaught (queued : List Record) (exc : PyExc)
  | ok (queued : List Record) (warned : Bool)
deriving DecidableEq

/-- Lines 110-177: `process_and_store_data(api_data)` with the configured
`METRIC_IDS` passed explicitly. -/
def process_and_store_data (api_data : JVal) (metricIds : List String) : ProcResult :=
  match navigatePayload api_data with
  | .error _ => .pathError
  | .ok seriesVal =>
    match pyLen seriesVal with
    | none => .uncaught [] PyExc.typeError
    | some n =>
      match pyIter seriesVal with
      | none => .uncaught [] PyExc.typeError
      | some seriesList =>
        let r := runSeriesFrom metricIds 0 seriesList
        match r.2 with
        | some ex => .uncaught r.1 ex
        | none => .ok r.1 (n != metricIds.length)

/-- Records queued for storage in a run, across all outcomes. -/
def queuedRecords : ProcResult → List Record
  | .pathError => []
  | .uncaught rs _ => rs
  | .ok rs _ => rs

/-! ## Stage 1: `harvest_credentials` and the stage gate in `main` -/

/-- A browser cookie as returned by `context.cookies()`. -/
structure Cookie where
  name : String
  value : String
  domain : String
deriving DecidableEq

/-- The browser-session facts `harvest_credentials` depends on: whether
navigation settles within its timeout, whether the wait for `window.App.stk`
succeeds within its timeout, and the token string and cookie jar read on
success. -/
structure BrowserEnv where
  navOk : Bool
  waitOk : Bool
  appStk : String
  cookies : List Cookie

/-- Lines 28-71: `harvest_credentials`.  A navigation timeout, a
wait-for-function timeout, or the explicit `raise` on an empty token or
empty cookie jar are all caught by the same handler, which returns
`(None, None)`. -/
def harvest_credentials (env : BrowserEnv) : Option String × Option (List Cookie) :=
  if env.navOk = false then (none, none)
  else if env.waitOk = false then (none, none)
  else if env.appStk = "" ∨ env.cookies = [] then (none, none)
  else (some env.appStk, some env.cookies)

/-- Lines 184-187: `main` proceeds past stage 1 only when `bearer_token` is
truthy (not `None` and not the empty string). -/
def mainContinuesPastStage1 (env : BrowserEnv) : Bool :=
  match (harvest_credentials env).1 with
  | none => false
  | some t => t != ""

/-! ## The durable store -/

/-- Modelled from the spec: the DynamoDB table is an external collaborator,
"an upsert-capable keyed store where each record's key is
`(metric_id, timestamp_ms)`"; `put_item` on an existing composite key
overwrites that record, otherwise it appends. -/
def putItem (store : List Record) (r : Record) : List Record :=
  match store with
  | [] => [r]
  | x :: rest =>
    if x.metricId = r.metricId ∧ x.timestamp = r.timestamp then r :: rest
    else x :: putItem rest r

/-- Modelled from the spec: reading the record stored under a composite key. -/
def getItemStore (store : List Record) (mid : String) (ts : Int) : Option Dec :=
  match store with
  | [] => none
  | x :: rest =>
    if x.metricId = mid ∧ x.timestamp = ts then some x.value
    else getItemStore rest mid ts

/-! ## Spec-side date arithmetic

An independent characterisation of "UTC midnight, milliseconds since the
epoch": count days by direct summation over calendar years and months and
anchor at 1970-01-01.  The pipeline's `daysFromCivil` is proved equal to
this count on every date `strptime` can return. -/

/-- Number of days in calendar year `y`. -/
def daysInYear (y : Nat) : Nat := if isLeapYear y then 366 else 365

/-- Days from 0001-01-01 to the start of year `y`, by summation. -/
def daysBeforeYear : Nat → Nat
  | 0 => 0
  | y + 1 => if y = 0 then 0 else daysBeforeYear y + daysInYear y

/-- Days from the start of year `y` to the start of its month `m`, by
summation. -/
def daysBeforeMonth (y : Nat) : Nat → Nat
  | 0 => 0
  | m + 1 => if m = 0 then 0 else daysBeforeMonth y m + daysInMonth y m

/-- Days since 1970-01-01 of the date `(y, m, d)`, counted by summation. -/
def specEpochDays (y m d : Nat) : Int :=
  (daysBeforeYear y : Int) + (daysBeforeMonth y m : Int) + (d : Int) - 1
    - (daysBeforeYear 1970 : Int)

/-! ## Concrete payloads -/

/-- The end-to-end payload
`{"data":{"c:115044":{"series":[[["2024-01-01",4.5],["2024-01-02",null]],[["2024-01-01",3.1]]]}}}`. -/
def examplePayload : JVal :=
  .obj [("data", .obj [("c:115044", .obj [("series", .arr [
    .arr [.arr [.str "2024-01-01", .num "4.5"], .arr [.str "2024-01-02", .null]],
    .arr [.arr [.str "2024-01-01", .num "3.1"]]])])])]

/-- A payload whose first series holds a non-numeric value followed by a
valid point: `[[["2024-01-01","abc"],["2024-01-02",1.5]]]`. -/
def nonNumericPayload : JVal :=
  .obj [("data", .obj [("c:115044", .obj [("series", .arr [
    .arr [.arr [.str "2024-01-01", .str "abc"], .arr [.str "2024-01-02", .num "1.5"]]])])])]

/-- A payload whose first series holds a malformed date followed by a valid
point: `[[["bad-date",1.0],["2024-01-02",1.5]]]`. -/
def badDatePayload : JVal :=
  .obj [("data", .obj [("c:115044", .obj [("series", .arr [
    .arr [.arr [.str "bad-date", .num "1.0"], .arr [.str "2024-01-02", .num "1.5"]]])])])]

/-- A payload where the fixed path resolves but `series` is the number 42:
`{"data":{"c:115044":{"series":42}}}`. -/
def numberSeriesPayload : JVal :=
  .obj [("data", .obj [("c:115044", .obj [("series", .num "42")])])]

/-- Four single-point series with values 1.0, 2.0, 3.0, 4.0. -/
def fourSeriesPayload : JVal :=
  .obj [("data", .obj [("c:115044", .obj [("series", .arr [
    .arr [.arr [.str "2024-01-01", .num "1.0"]],
    .arr [.arr [.str "2024-01-01", .num "2.0"]],
    .arr [.arr [.str "2024-01-01", .num "3.0"]],
    .arr [.arr [.str "2024-01-01", .num "4.0"]]])])])]

/-! ## Helper lemmas -/

theorem caughtToStep_ne_put (e : PyExc) (r : Record) :
    caughtToStep e ≠ EntryStep.put r := by
  unfold caughtToStep
  split <;> simp

theorem processEntry_put_dvd (mid : String) (e : JVal) (r : Record)
    (h : processEntry mid e = EntryStep.put r) : (86400000 : Int) ∣ r.timestamp := by
  unfold processEntry at h
  split at h
  · exact absurd h (caughtToStep_ne_put _ _)
  · split at h
    · exact absurd h (caughtToStep_ne_put _ _)
    · split at h
      · simp at h
      · split at h
        · exact absurd h (caughtToStep_ne_put _ _)
        · split at h
          · exact absurd h (caughtToStep_ne_put _ _)
          · injection h with h2
            rw [← h2]
            simp only [timestampMsOfDate]
            exact dvd_mul_left _ _

theorem runEntries_mem_dvd (mid : String) (es : List JVal) (r : Record)
    (h : r ∈ (runEntries mid es).1) : (86400000 : Int) ∣ r.timestamp := by
  induction es with
  | nil => simp [runEntries] at h
  | cons e rest ih =>
    rcases hpe : processEntry mid e with r0 | _ | ex
    · rw [runEntries, hpe] at h
      rcases List.mem_cons.mp h with h1 | h2
      · exact h1 ▸ processEntry_put_dvd mid e r0 hpe
      · exact ih h2
    · rw [runEntries, hpe] at h
      exact ih h
    · rw [runEntries, hpe] at h
      simp at h

theorem runSeriesFrom_mem_dvd (ids : List String) (ss : List JVal) (idx : Nat)
    (r : Record) (h : r ∈ (runSeriesFrom ids idx ss).1) :
    (86400000 : Int) ∣ r.timestamp := by
  induction ss generalizing idx with
  | nil => simp [runSeriesFrom] at h
  | cons s rest ih =>
    rw [runSeriesFrom] at h
    split at h
    · rcases hit : pyIter s with _ | entries <;> rw [hit] at h
      · simp at h
      · simp only [] at h
        split at h
        · exact runEntries_mem_dvd _ _ _ h
        · rcases List.mem_append.mp h with h1 | h2
          · exact runEntries_mem_dvd _ _ _ h1
          · exact ih _ h2
    · simp at h

theorem runSeriesFrom_take (ids : List String) (idx : Nat) (ss : List JVal) :
    runSeriesFrom ids idx ss = runSeriesFrom ids idx (ss.take (ids.length - idx)) := by
  induction ss generalizing idx with
  | nil => rw [List.take_nil]
  | cons s rest ih =>
    by_cases hlt : idx < ids.length
    · have hk : ids.length - idx = (ids.length - (idx + 1)) + 1 := by omega
      rw [hk, List.take_succ_cons, runSeriesFrom, runSeriesFrom]
      rw [show runSeriesFrom ids (idx + 1) (rest.take (ids.length - (idx + 1)))
            = runSeriesFrom ids (idx + 1) rest from (ih (idx + 1)).symm]
    · have h0 : ids.length - idx = 0 := by omega
      rw [h0, List.take_zero, runSeriesFrom, runSeriesFrom]
      simp [hlt]

/-! ## Claim theorems -/

/-- C1: for the payload
`{"data":{"c:115044":{"series":[[["2024-01-01",4.5],["2024-01-02",null]],[["2024-01-01",3.1]]]}}}`
and metric ids `["M1","M2"]`, exactly the records `(M1, 1704067200000, 4.5)`
and `(M2, 1704067200000, 3.1)` are queued for storage, and no others. -/
theorem mmOIS_c1_end_to_end_two_records :
    process_and_store_data examplePayload ["M1", "M2"] =
      ProcResult.ok [⟨"M1", 1704067200000, Dec.num false 45 (-1)⟩,
                     ⟨"M2", 1704067200000, Dec.num false 31 (-1)⟩] false := by
  decide

/-- C3 (code bug): a non-numeric value does not get skipped — on the entry
`["2024-01-01","abc"]` the conversion `decimal.Decimal(str(value))` raises
`decimal.InvalidOperation`, which the per-point handler
`except (ValueError, TypeError, IndexError)` does not catch, so the whole
batch aborts and the following valid pair `["2024-01-02",1.5]` (which on its
own would queue a record) is lost.  A malformed date, by contrast, is
recovered locally as the claim states. -/
theorem mmOIS_c3_nonnumeric_value_aborts_batch :
    process_and_store_data nonNumericPayload ["M1"] =
      ProcResult.uncaught [] PyExc.invalidOperation ∧
    processEntry "M1" (JVal.arr [JVal.str "2024-01-02", JVal.num "1.5"]) =
      EntryStep.put ⟨"M1", 1704153600000, Dec.num false 15 (-1)⟩ ∧
    process_and_store_data badDatePayload ["M1"] =
      ProcResult.ok [⟨"M1", 1704153600000, Dec.num false 15 (-1)⟩] false := by
  decide

/-- C4 (counterexample): for the payload
`{"data":{"c:115044":{"series":42}}}` the fixed path resolves but the
series value is malformed; the run does not abort with the structured error
— `len(42)` raises an uncaught `TypeError` (a crash) instead. -/
theorem mmOIS_c4_counterexample_malformed_series_crashes :
    process_and_store_data numberSeriesPayload ["M1"] =
      ProcResult.uncaught [] PyExc.typeError ∧
    process_and_store_data numberSeriesPayload ["M1"] ≠ ProcResult.pathError := by
  decide

/-- C4 (amended): whenever navigating the fixed path
`data → "c:115044" → series` raises (`KeyError`/`TypeError` while
subscripting), the writer aborts with the structured path error and queues
no records in that run. -/
theorem mmOIS_c4_absent_path_structured_error (payload : JVal) (ids : List String)
    (e : PyExc) (h : navigatePayload payload = Except.error e) :
    process_and_store_data payload ids = ProcResult.pathError := by
  unfold process_and_store_data
  rw [h]

theorem mmOIS_c4_absent_path_structured_error_witness :
    process_and_store_data (JVal.obj []) ["M1"] = ProcResult.pathError :=
  mmOIS_c4_absent_path_structured_error (JVal.obj []) ["M1"] PyExc.keyError rfl

/-- C5: an input pair whose value is null is skipped by the `value is None`
check — it produces no record, and the records queued for the rest of the
series are exactly those queued without the pair. -/
theorem mmOIS_c5_null_value_never_persisted (mid : String) (e : JVal)
    (rest : List JVal) (h : pyIndex e 1 = Except.ok JVal.null) :
    processEntry mid e = EntryStep.skip ∧
    runEntries mid (e :: rest) = runEntries mid rest := by
  have hskip : processEntry mid e = EntryStep.skip := by
    cases e with
    | null => simp [pyIndex] at h
    | bool b => simp [pyIndex] at h
    | num s => simp [pyIndex] at h
    | obj fs => simp [pyIndex] at h
    | str s =>
      rcases hs : s.data[1]? with _ | c <;> simp [pyIndex, hs] at h
    | arr es =>
      match es with
      | [] => simp [pyIndex] at h
      | [a] => simp [pyIndex] at h
      | a :: b :: tl =>
        have hb : b = JVal.null := by simpa [pyIndex] using h
        subst hb
        simp [processEntry, pyIndex, isNull]
  exact ⟨hskip, by rw [runEntries, hskip]⟩

theorem mmOIS_c5_null_value_never_persisted_witness :
    processEntry "M1" (JVal.arr [JVal.str "2024-01-02", JVal.null]) =
      EntryStep.skip :=
  (mmOIS_c5_null_value_never_persisted "M1"
    (JVal.arr [JVal.str "2024-01-02", JVal.null]) [] rfl).1

/-- C7: series are matched to metric ids purely by position; running the
loop is unchanged by dropping the series beyond the configured id count
(the `break` truncates processing there), and a count mismatch only sets
the warning.  Concretely, with ids `["A","B","C"]` and four series the
first three map positionally, the fourth is dropped, and the run still
succeeds with the warning flag set. -/
theorem mmOIS_c7_positional_mapping_truncation :
    (∀ (ids : List String) (ss : List JVal),
        runSeriesFrom ids 0 ss = runSeriesFrom ids 0 (ss.take ids.length)) ∧
    process_and_store_data fourSeriesPayload ["A", "B", "C"] =
      ProcResult.ok [⟨"A", 1704067200000, Dec.num false 10 (-1)⟩,
                     ⟨"B", 1704067200000, Dec.num false 20 (-1)⟩,
                     ⟨"C", 1704067200000, Dec.num false 30 (-1)⟩] true := by
  constructor
  · intro ids ss
    simpa using runSeriesFrom_take ids 0 ss
  · decide

/-- C8: the store write is an upsert keyed by `(metricId, timestamp)`:
writing the same record twice leaves the store exactly as writing it once,
and a write overwrites any record with the same composite key. -/
theorem mmOIS_c8_upsert_idempotent :
    (∀ (store : List Record) (r : Record),
        putItem (putItem store r) r = putItem store r) ∧
    (∀ (store : List Record) (r : Record),
        getItemStore (putItem store r) r.metricId r.timestamp = some r.value) := by
  constructor
  · intro store r
    induction store with
    | nil => simp [putItem]
    | cons x rest ih =>
      by_cases hx : x.metricId = r.metricId ∧ x.timestamp = r.timestamp
      · simp [putItem, hx]
      · simp [putItem, hx, ih]
  · intro store r
    induction store with
    | nil => simp [putItem, getItemStore]
    | cons x rest ih =>
      by_cases hx : x.metricId = r.metricId ∧ x.timestamp = r.timestamp
      · simp [putItem, hx, getItemStore]
      · simp [putItem, hx, getItemStore, ih]

/-- C10: every record queued for storage carries a timestamp that is an
exact integer multiple of 86400000 ms, i.e. denotes UTC midnight of some
calendar day. -/
theorem mmOIS_c10_timestamps_day_aligned (payload : JVal) (ids : List String)
    (r : Record) (h : r ∈ queuedRecords (process_and_store_data payload ids)) :
    (86400000 : Int) ∣ r.timestamp := by
  unfold process_and_store_data at h
  split at h
  · simp [queuedRecords] at h
  · split at h
    · simp [queuedRecords] at h
    · split at h
      · simp [queuedRecords] at h
      · simp only [] at h
        split at h
        · exact runSeriesFrom_mem_dvd _ _ _ _ (by simpa [queuedRecords] using h)
        · exact runSeriesFrom_mem_dvd _ _ _ _ (by simpa [queuedRecords] using h)

theorem mmOIS_c10_timestamps_day_aligned_witness :
    (86400000 : Int) ∣
      (Record.mk "M1" 1704067200000 (Dec.num false 45 (-1))).timestamp :=
  mmOIS_c10_timestamps_day_aligned examplePayload ["M1", "M2"] _ (by decide)

theorem yearCivilSplit (k : Nat) :
    ((k / 400 : Nat) : Int) * 146097
      + ((k % 400 * 365 + k % 400 / 4 - k % 400 / 100 : Nat) : Int)
      = 365 * (k : Int) + ((k / 4 : Nat) : Int) - ((k / 100 : Nat) : Int)
        + ((k / 400 : Nat) : Int) := by
  have h4 : k / 4 = 100 * (k / 400) + (k % 400) / 4 := by omega
  have h100 : k / 100 = 4 * (k / 400) + (k % 400) / 100 := by omega
  omega

theorem daysBeforeYear_closed (n : Nat) :
    (daysBeforeYear (n + 1) : Int) =
      365 * n + ((n / 4 : Nat) : Int) - ((n / 100 : Nat) : Int) + ((n / 400 : Nat) : Int) := by
  induction n with
  | zero => simp [daysBeforeYear]
  | succ k ih =>
    rw [daysBeforeYear]
    simp only [Nat.succ_ne_zero, if_false]
    rcases hL : isLeapYear (k + 1) with _ | _
    · have hm : ¬((k + 1) % 4 = 0 ∧ ((k + 1) % 100 ≠ 0 ∨ (k + 1) % 400 = 0)) := by
        simpa [isLeapYear] using hL
      simp [daysInYear, hL]
      omega
    · have hm : (k + 1) % 4 = 0 ∧ ((k + 1) % 100 ≠ 0 ∨ (k + 1) % 400 = 0) := by
        simpa [isLeapYear] using hL
      simp [daysInYear, hL]
      omega

theorem daysBeforeYear_1970 : (daysBeforeYear 1970 : Int) = 719162 := by
  have h := daysBeforeYear_closed 1969
  norm_num at h
  exact h

set_option maxHeartbeats 2000000 in
theorem daysFromCivil_eq_specEpochDays (y m d : Nat) (hy : 1 ≤ y) (hm1 : 1 ≤ m)
    (hm2 : m ≤ 12) (hd : 1 ≤ d) : daysFromCivil y m d = specEpochDays y m d := by
  obtain ⟨n, rfl⟩ : ∃ n, y = n + 1 := ⟨y - 1, by omega⟩
  have e1 := daysBeforeYear_closed n
  have h70 := daysBeforeYear_1970
  by_cases hle : m ≤ 2
  · have hsplit := yearCivilSplit n
    interval_cases m <;>
      [norm_num [daysFromCivil, specEpochDays, daysBeforeMonth, daysInMonth];
       norm_num [daysFromCivil, specEpochDays, daysBeforeMonth, daysInMonth]] <;>
      omega
  · have hsplit := yearCivilSplit (n + 1)
    have e2 : (daysBeforeYear (n + 2) : Int) =
        365 * (n + 1) + (((n + 1) / 4 : Nat) : Int) - (((n + 1) / 100 : Nat) : Int)
          + (((n + 1) / 400 : Nat) : Int) := daysBeforeYear_closed (n + 1)
    have estep : daysBeforeYear (n + 2) = daysBeforeYear (n + 1) + daysInYear (n + 1) := by
      rw [show n + 2 = (n + 1) + 1 from rfl, daysBeforeYear]
      simp
    rcases hL : isLeapYear (n + 1) with _ | _
    · have hdiy : daysInYear (n + 1) = 365 := by simp [daysInYear, hL]
      interval_cases m <;>
        norm_num [daysFromCivil, specEpochDays, daysBeforeMonth, daysInMonth, hL] <;>
        omega
    · have hdiy : daysInYear (n + 1) = 366 := by simp [daysInYear, hL]
      interval_cases m <;>
        norm_num [daysFromCivil, specEpochDays, daysBeforeMonth, daysInMonth, hL] <;>
        omega

theorem parseDate_bounds (s : String) (y m d : Nat)
    (h : parseDate s = some (y, m, d)) :
    1 ≤ y ∧ y ≤ 9999 ∧ 1 ≤ m ∧ m ≤ 12 ∧ 1 ≤ d ∧ d ≤ daysInMonth y m := by
  unfold parseDate at h
  rcases hr : rawParseDate s with _ | ⟨⟨y2, m2, d2⟩⟩ <;> rw [hr] at h
  · simp at h
  · dsimp only at h
    by_cases hv : validDate y2 m2 d2 = true
    · rw [if_pos hv] at h
      simp only [Option.some.injEq, Prod.mk.injEq] at h
      obtain ⟨rfl, rfl, rfl⟩ := h
      have hv2 := by simpa [validDate, Bool.and_eq_true, decide_eq_true_eq] using hv
      exact ⟨hv2.1.1.1.1.1, hv2.1.1.1.1.2, hv2.1.1.1.2, hv2.1.1.2, hv2.1.2, hv2.2⟩
    · rw [if_neg hv] at h
      simp at h

/-- C6: every date string accepted by `strptime` is anchored at UTC midnight
and converted to milliseconds since the epoch — the pipeline's timestamp
equals 86400000 times the day count obtained by direct calendar summation —
and in particular `"2024-01-15"` maps to `1705276800000`. -/
theorem mmOIS_c6_utc_midnight_epoch_ms :
    (∀ (s : String) (y m d : Nat), parseDate s = some (y, m, d) →
        timestampMsOfDate y m d = 86400000 * specEpochDays y m d) ∧
    parseDate "2024-01-15" = some (2024, 1, 15) ∧
    timestampMsOfDate 2024 1 15 = 1705276800000 := by
  refine ⟨?_, by decide, by decide⟩
  intro s y m d h
  obtain ⟨hy1, hy2, hm1, hm2, hd1, hd2⟩ := parseDate_bounds s y m d h
  rw [timestampMsOfDate, daysFromCivil_eq_specEpochDays y m d hy1 hm1 hm2 hd1]
  ring

theorem mmOIS_c6_utc_midnight_epoch_ms_witness :
    timestampMsOfDate 2024 1 15 = 86400000 * specEpochDays 2024 1 15 :=
  mmOIS_c6_utc_midnight_epoch_ms.1 "2024-01-15" 2024 1 15 (by decide)

/-- C9: every failure mode of the credential harvester — navigation timeout,
wait-for-condition timeout, empty token, or empty cookie jar — collapses to
the single `(None, None)` outcome, after which `main` aborts; a returned
bundle always has a non-empty token and non-empty cookies, and no partial
bundle (one field populated, the other not) is ever produced. -/
theorem mmOIS_c9_harvest_all_or_nothing (env : BrowserEnv) :
    (env.navOk = false ∨ env.waitOk = false ∨ env.appStk = "" ∨ env.cookies = [] →
      harvest_credentials env = (none, none) ∧ mainContinuesPastStage1 env = false) ∧
    (∀ (t : String) (cs : List Cookie),
      harvest_credentials env = (some t, some cs) → t ≠ "" ∧ cs ≠ []) ∧
    (harvest_credentials env = (none, none) ∨
      harvest_credentials env = (some env.appStk, some env.cookies)) := by
  obtain ⟨nav, wait, tok, cks⟩ := env
  simp only [harvest_credentials, mainContinuesPastStage1]
  cases nav
  · simp
  · cases wait
    · simp
    · by_cases hc : tok = "" ∨ cks = []
      · rcases hc with hc | hc <;> simp [hc]
      · push_neg at hc
        simp [hc.1, hc.2]

theorem mmOIS_c9_harvest_all_or_nothing_witness :
    harvest_credentials ⟨false, true, "tok", []⟩ = (none, none) ∧
    ("tok" ≠ "" ∧ [Cookie.mk "n" "v" "d"] ≠ ([] : List Cookie)) := by
  refine ⟨((mmOIS_c9_harvest_all_or_nothing ⟨false, true, "tok", []⟩).1 (Or.inl rfl)).1, ?_⟩
  exact (mmOIS_c9_harvest_all_or_nothing ⟨true, true, "tok", [⟨"n", "v", "d"⟩]⟩).2.1
    "tok" [⟨"n", "v", "d"⟩] rfl
